import Mathlib

/-!
Shallow embedding of the EHR AI services repository: relational data
model (`app/models/sql_models.py`), provisioning and ingestion endpoints
(`app/api/v1/endpoints/facilities.py`, `app/api/v1/endpoints/medical_data.py`),
the patient-scoped query service (`app/services/llama_service.py`) and the
heuristic confidence-scoring helpers.

Database rows are Lean structures; the database session is an explicit
`DBState` value threaded through each endpoint.  UUIDs are modelled as `Nat`
identifiers supplied by the caller (the endpoints only compare them for
equality), datetimes as `Nat` day counts, and Python floats as `ℚ`.
SQLAlchemy's commit/rollback discipline is modelled step by step: each
`db.commit()` in the source publishes the pending rows into the state, and a
`db.rollback()` discards only rows not yet committed.  Failures of the
database layer at a given commit (the unexpected exceptions the endpoints
catch) are injected through explicit boolean parameters.
-/

namespace EhrSpec

/-- UUIDs are modelled as natural-number identifiers. -/
abbrev Id := Nat

/-- HTTP error raised via FastAPI's HTTPException. -/
structure HTTPError where
  status : Nat
  detail : String
deriving Repr, DecidableEq

/-- Row of the `facilities` table (`sql_models.Facility`).  `external_id` is
nullable and carries a UNIQUE constraint. -/
structure Facility where
  id : Id
  name : String
  external_id : Option String
  address : Option String
deriving Repr, DecidableEq

/-- Row of the `vector_dbs` table (`sql_models.VectorDB`). -/
structure VectorDB where
  id : Id
  name : String
  facility_id : Id
deriving Repr, DecidableEq

/-- Row of the `collections` table (`sql_models.Collection`). -/
structure Collection where
  id : Id
  name : String
  description : String
  vector_db_id : Id
deriving Repr, DecidableEq

/-- Row of the `patient_identifiers` table (`sql_models.PatientIdentifier`).
`patient_code` carries a UNIQUE constraint. -/
structure PatientIdentifier where
  id : Id
  patient_code : String
  external_id : Option String
  facility_id : Id
  age_range : Option String
  gender : Option String
deriving Repr, DecidableEq

/-- Row of the `medical_documents` table (`sql_models.MedicalDocument`).
`metadata_json` is a JSON object of string keys/values; Python `None` and the
empty dict `\x7b\x7d` are both falsy and are both modelled by `[]`. -/
structure MedicalDocument where
  id : Id
  content : String
  document_type : String
  document_category : String
  sensitivity_level : String
  patient_identifier_id : Option Id
  collection_id : Option Id
  facility_id : Id
  metadata_json : List (String × String)
  processed : Bool
  created_at : Nat
  updated_at : Nat
deriving Repr, DecidableEq

/-- A document handed to `LlamaService.add_document_to_index`: its text
content together with the metadata dictionary. -/
structure IndexedDocument where
  content : String
  metadata : List (String × String)
deriving Repr, DecidableEq

/-- The relational database state plus the external AI index, as far as the
modelled endpoints read and write it. -/
structure DBState where
  facilities : List Facility
  vectorDBs : List VectorDB
  collections : List Collection
  patientIdentifiers : List PatientIdentifier
  medicalDocuments : List MedicalDocument
  aiIndex : List IndexedDocument
deriving Repr, DecidableEq

/-- Request body of `POST /facilities` (`models.FacilityCreate`). -/
structure FacilityCreate where
  name : String
  address : Option String
  external_id : Option String
deriving Repr, DecidableEq

/-- Response body of the facility endpoints (`models.FacilityResponse`). -/
structure FacilityResponse where
  id : Id
  name : String
  address : Option String
  external_id : Option String
  created_at : Nat
  updated_at : Nat
deriving Repr, DecidableEq

/-- Python truthiness of an optional string: `None` and `""` are falsy.
Used to model `if facility_data.external_id:`. -/
def pyTruthy : Option String → Bool
  | none => false
  | some s => !(s == "")

/-- Whether inserting a facility with the given `external_id` would violate
the UNIQUE constraint on `facilities.external_id` (NULLs never collide). -/
def externalIdTaken (db : DBState) (ext : Option String) : Bool :=
  match ext with
  | none => false
  | some e => (db.facilities.find? (fun f => f.external_id == some e)).isSome

/-- Injected database-layer failures for the three commits performed by
`create_facility` (the unexpected exceptions its generic handler catches). -/
structure FacilityStepFails where
  atFacility : Bool
  atVectorDB : Bool
  atCollection : Bool
deriving Repr, DecidableEq

/-- `POST /facilities` (`facilities.create_facility`).  Checks the provided
(truthy) `external_id` against existing facilities, then commits, in order, a
`Facility`, a `VectorDB` named `\x7bname\x7d_VectorDB`, and a `Collection`
named `Facility_Shared_Collection`.  Each commit publishes its row; an
exception at a later commit is caught by the generic handler, which rolls
back only the pending (uncommitted) row and returns a 400.  `fid`, `vid`,
`cid` are the UUIDs generated for the three rows and `now` the wall-clock
used for the timestamps. -/
def create_facility (facility_data : FacilityCreate) (fails : FacilityStepFails)
    (fid vid cid : Id) (now : Nat) (db : DBState) :
    Except HTTPError FacilityResponse × DBState :=
  if pyTruthy facility_data.external_id && externalIdTaken db facility_data.external_id then
    (.error ⟨400, "Facility with external_id already exists"⟩, db)
  else if fails.atFacility || externalIdTaken db facility_data.external_id then
    (.error ⟨400, "Error creating facility"⟩, db)
  else
    let facility : Facility :=
      { id := fid
        name := facility_data.name
        external_id := facility_data.external_id
        address := facility_data.address }
    let db1 := { db with facilities := db.facilities ++ [facility] }
    if fails.atVectorDB then
      (.error ⟨400, "Error creating facility"⟩, db1)
    else
      let vector_db : VectorDB :=
        { id := vid
          name := facility_data.name ++ "_VectorDB"
          facility_id := facility.id }
      let db2 := { db1 with vectorDBs := db1.vectorDBs ++ [vector_db] }
      if fails.atCollection then
        (.error ⟨400, "Error creating facility"⟩, db2)
      else
        let shared_collection : Collection :=
          { id := cid
            name := "Facility_Shared_Collection"
            description := "Shared collection for all patient documents at " ++ facility_data.name
            vector_db_id := vector_db.id }
        let db3 := { db2 with collections := db2.collections ++ [shared_collection] }
        (.ok { id := facility.id
               name := facility.name
               address := facility.address
               external_id := facility.external_id
               created_at := now
               updated_at := now }, db3)

/-- Request body of `POST /patient-identifiers` (`models.PatientIdentifierCreate`). -/
structure PatientIdentifierCreate where
  patient_code : String
  external_id : Option String
  facility_id : Id
  age_range : Option String
  gender : Option String
deriving Repr, DecidableEq

/-- Whether inserting a patient with the given `patient_code` would violate
the UNIQUE constraint on `patient_identifiers.patient_code`. -/
def patientCodeTaken (db : DBState) (code : String) : Bool :=
  (db.patientIdentifiers.find? (fun p => p.patient_code == code)).isSome

/-- `POST /patient-identifiers` (`medical_data.create_patient_identifier`).
Validates that the facility exists (400 otherwise) and that it has a
`VectorDB` (400 otherwise), commits the `PatientIdentifier` (a duplicate
`patient_code` makes this commit fail, and the generic handler rolls the
pending row back and returns 400), then commits a dedicated `Collection`
named `Patient_\x7bpatient_code\x7d_Collection` under the facility's
`VectorDB`.  `pid` and `collId` are the generated UUIDs of the two rows. -/
def create_patient_identifier (patient_data : PatientIdentifierCreate)
    (pid collId : Id) (db : DBState) :
    Except HTTPError PatientIdentifier × DBState :=
  if (db.facilities.find? (fun f => f.id == patient_data.facility_id)).isNone then
    (.error ⟨400, "Facility not found"⟩, db)
  else
    match db.vectorDBs.find? (fun v => v.facility_id == patient_data.facility_id) with
    | none =>
        (.error ⟨400, "Facility's vector database not found. Please contact administrator."⟩, db)
    | some facility_vector_db =>
        if patientCodeTaken db patient_data.patient_code then
          (.error ⟨400, "Error creating patient identifier"⟩, db)
        else
          let patient_identifier : PatientIdentifier :=
            { id := pid
              patient_code := patient_data.patient_code
              external_id := patient_data.external_id
              facility_id := patient_data.facility_id
              age_range := patient_data.age_range
              gender := patient_data.gender }
          let db1 := { db with
            patientIdentifiers := db.patientIdentifiers ++ [patient_identifier] }
          let patient_collection : Collection :=
            { id := collId
              name := "Patient_" ++ patient_data.patient_code ++ "_Collection"
              description := "Medical documents collection for patient " ++ patient_data.patient_code
              vector_db_id := facility_vector_db.id }
          let db2 := { db1 with collections := db1.collections ++ [patient_collection] }
          (.ok patient_identifier, db2)

/-- Request body of `POST /medical-documents` (`models.MedicalDocumentCreate`). -/
structure MedicalDocumentCreate where
  content : String
  metadata : List (String × String)
  patient_identifier_id : Option Id
  document_type : String
  document_category : String
  sensitivity_level : String
  collection_id : Option Id
deriving Repr, DecidableEq

/-- Response body of the medical-document endpoints
(`models.MedicalDocumentResponse`); it deliberately has no `content` field. -/
structure MedicalDocumentResponse where
  id : Id
  patient_identifier_id : Option Id
  document_type : String
  document_category : String
  sensitivity_level : String
  metadata : List (String × String)
  created_at : Nat
  updated_at : Nat
deriving Repr, DecidableEq

/-- Serialization of a `MedicalDocument` row into the response model, as the
endpoints build it (`metadata_json or \x7b\x7d` maps `None` to the empty
dict; both are `[]` here). -/
def medicalDocumentToResponse (d : MedicalDocument) : MedicalDocumentResponse :=
  { id := d.id
    patient_identifier_id := d.patient_identifier_id
    document_type := d.document_type
    document_category := d.document_category
    sensitivity_level := d.sensitivity_level
    metadata := d.metadata_json
    created_at := d.created_at
    updated_at := d.updated_at }

/-- The collection lookup of `ingest_medical_document`: the first
`Collection` joined to a `VectorDB` of the patient's facility whose name is
`Patient_\x7bpatient_code\x7d_Collection`. -/
def findPatientCollection (db : DBState) (patient : PatientIdentifier) : Option Collection :=
  db.collections.find? (fun c =>
    (db.vectorDBs.find? (fun v =>
      v.id == c.vector_db_id && v.facility_id == patient.facility_id)).isSome
    && c.name == "Patient_" ++ patient.patient_code ++ "_Collection")

/-- The metadata dictionary `ingest_medical_document` hands to
`LlamaService.add_document_to_index` (its `ai_metadata`). -/
def aiMetadata (docId : Id) (patient : PatientIdentifier)
    (doc : MedicalDocument) (coll : Collection)
    (extra : List (String × String)) : List (String × String) :=
  [("document_id", toString docId),
   ("patient_code", patient.patient_code),
   ("patient_identifier_id", toString patient.id),
   ("facility_id", toString patient.facility_id),
   ("document_type", doc.document_type),
   ("document_category", doc.document_category),
   ("sensitivity_level", doc.sensitivity_level),
   ("collection_id", toString coll.id)] ++ extra

/-- `POST /medical-documents` (`medical_data.ingest_medical_document`).
Validates the patient identifier (400 if absent), resolves the patient's
dedicated collection by name through the VectorDB join (400 if absent),
commits the `MedicalDocument` row with `collection_id` taken from that
lookup — the request's own `collection_id` is never read — and then
best-effort inserts content plus metadata into the AI index.  `indexFails`
injects a failure of that external call; the exception is logged and
swallowed, so the response and the relational state do not depend on it.
`docId` is the row's generated UUID and `now` the timestamp clock. -/
def ingest_medical_document (document_data : MedicalDocumentCreate)
    (indexFails : Bool) (docId : Id) (now : Nat) (db : DBState) :
    Except HTTPError MedicalDocumentResponse × DBState :=
  match db.patientIdentifiers.find?
      (fun p => some p.id == document_data.patient_identifier_id) with
  | none => (.error ⟨400, "Patient identifier not found"⟩, db)
  | some patient_identifier =>
      match findPatientCollection db patient_identifier with
      | none =>
          (.error ⟨400, "Patient collection not found. Please contact administrator."⟩, db)
      | some patient_collection =>
          let medical_document : MedicalDocument :=
            { id := docId
              content := document_data.content
              document_type := document_data.document_type
              document_category := document_data.document_category
              sensitivity_level := document_data.sensitivity_level
              patient_identifier_id := document_data.patient_identifier_id
              collection_id := some patient_collection.id
              facility_id := patient_identifier.facility_id
              metadata_json := document_data.metadata
              processed := false
              created_at := now
              updated_at := now }
          let db1 := { db with medicalDocuments := db.medicalDocuments ++ [medical_document] }
          let db2 :=
            if indexFails then db1
            else { db1 with aiIndex := db1.aiIndex ++
              [{ content := document_data.content
                 metadata := aiMetadata docId patient_identifier medical_document
                   patient_collection document_data.metadata }] }
          (.ok (medicalDocumentToResponse medical_document), db2)

/-- `GET /medical-documents/\x7bdocument_id\x7d`
(`medical_data.get_medical_document`): 404 when no row has the id, else the
serialized row. -/
def get_medical_document (document_id : Id) (db : DBState) :
    Except HTTPError MedicalDocumentResponse :=
  match db.medicalDocuments.find? (fun d => d.id == document_id) with
  | none => .error ⟨404, "Medical document not found"⟩
  | some d => .ok (medicalDocumentToResponse d)

/-- Boolean prefix test on character lists (for Python's `in` on strings). -/
def charsHavePre : List Char → List Char → Bool
  | [], _ => true
  | _ :: _, [] => false
  | a :: as, b :: bs => a == b && charsHavePre as bs

/-- Boolean contiguous-substring test on character lists. -/
def charsHaveSub (needle : List Char) : List Char → Bool
  | [] => charsHavePre needle []
  | b :: bs => charsHavePre needle (b :: bs) || charsHaveSub needle bs

/-- Python's `needle in haystack` on strings. -/
def strContains (haystack needle : String) : Bool :=
  charsHaveSub needle.toList haystack.toList

/-- Dictionary lookup `d.get(k)` on a string-keyed dict modelled as an
association list. -/
def dictGet (d : List (String × String)) (k : String) : Option String :=
  (d.find? (fun kv => kv.1 == k)).map (fun kv => kv.2)

/-- One entry of the `diagnostic_insights` dictionaries built by
`LlamaService._extract_diagnostic_insights`. -/
structure DiagnosticInsight where
  category : String
  insight : String
  confidence : ℚ
  type : String
  parameter : Option String
deriving Repr, DecidableEq

/-- The `medical_terms` table of `_extract_diagnostic_insights`, in the
source's insertion order. -/
def medicalTerms : List (String × String) :=
  [("cholesterol", "lipid_panel"), ("glucose", "metabolic_panel"),
   ("hemoglobin", "hematology"), ("hematocrit", "hematology"),
   ("white blood cell", "hematology"), ("wbc", "hematology"),
   ("red blood cell", "hematology"), ("rbc", "hematology"),
   ("platelet", "hematology"), ("creatinine", "kidney_function"),
   ("bun", "kidney_function"), ("sodium", "electrolytes"),
   ("potassium", "electrolytes"), ("chloride", "electrolytes"),
   ("co2", "electrolytes"), ("blood pressure", "vital_signs"),
   ("heart rate", "vital_signs"), ("temperature", "vital_signs"),
   ("respiratory rate", "vital_signs"), ("oxygen saturation", "vital_signs"),
   ("alt", "liver_function"), ("ast", "liver_function"),
   ("bilirubin", "liver_function"), ("alkaline phosphatase", "liver_function"),
   ("troponin", "cardiac_markers"), ("ck-mb", "cardiac_markers"),
   ("bnp", "cardiac_markers"), ("nt-probnp", "cardiac_markers"),
   ("tsh", "thyroid_function"), ("t3", "thyroid_function"),
   ("t4", "thyroid_function"), ("esr", "inflammatory_markers"),
   ("crp", "inflammatory_markers"), ("c-reactive protein", "inflammatory_markers"),
   ("pt", "coagulation"), ("ptt", "coagulation"), ("inr", "coagulation"),
   ("protein", "urinalysis"), ("ketones", "urinalysis"),
   ("specific gravity", "urinalysis"), ("x-ray", "imaging"),
   ("ct scan", "imaging"), ("mri", "imaging"), ("ultrasound", "imaging"),
   ("echocardiogram", "imaging")]

/-- `LlamaService._extract_diagnostic_insights`: keyword scanning of the
lower-cased response text. -/
def extract_diagnostic_insights (response_text : String) : List DiagnosticInsight :=
  let lower := response_text.toLower
  let normalOnes : List DiagnosticInsight :=
    if strContains lower "normal" then
      [{ category := "general"
         insight := "Values appear to be within normal ranges"
         confidence := 0.8
         type := "normal_finding"
         parameter := none }]
    else []
  let abnormalOnes : List DiagnosticInsight :=
    if strContains lower "abnormal" || strContains lower "elevated" then
      [{ category := "abnormal_finding"
         insight := "Some values may require attention"
         confidence := 0.7
         type := "potential_concern"
         parameter := none }]
    else []
  let termOnes : List DiagnosticInsight :=
    (medicalTerms.filter (fun tc => strContains lower tc.1)).map (fun tc =>
      { category := tc.2
        insight := "Analysis includes " ++ tc.1 ++ " data"
        confidence := 0.9
        type := "data_present"
        parameter := some tc.1 })
  normalOnes ++ abnormalOnes ++ termOnes

/-- A retrieved node of the external query engine's response
(`response.source_nodes` in `query_patient_documents`).  The engine itself is
an external black box, so its response is an input of the model. -/
structure SourceNode where
  text : String
  metadata : List (String × String)
  score : Option ℚ
deriving Repr, DecidableEq

/-- The external query engine's response: the answer text and the retrieved
source nodes. -/
structure QueryEngineResponse where
  response : String
  source_nodes : List SourceNode
deriving Repr, DecidableEq

/-- One entry of the serialized `source_documents` list built by
`query_patient_documents`. -/
structure SourceDocument where
  content : String
  metadata : List (String × String)
  score : Option ℚ
deriving Repr, DecidableEq

/-- The dictionary `query_patient_documents` returns. -/
structure PatientQueryResult where
  response : String
  source_nodes : List SourceDocument
  diagnostic_insights : List DiagnosticInsight
deriving Repr, DecidableEq

/-- `LlamaService.query_patient_documents`: queries the engine (whose
response is the `engine` input), keeps only the source nodes whose metadata
entry `patient_identifier_id` equals the queried patient's id, serializes
them, and extracts diagnostic insights from the response text. -/
def query_patient_documents (patient_identifier_id : String) (query : String)
    (engine : QueryEngineResponse) : PatientQueryResult :=
  let patient_nodes := engine.source_nodes.filter (fun node =>
    dictGet node.metadata "patient_identifier_id" == some patient_identifier_id)
  let source_documents := patient_nodes.map (fun node =>
    { content := node.text
      metadata := node.metadata
      score := node.score })
  { response := engine.response
    source_nodes := source_documents
    diagnostic_insights := extract_diagnostic_insights engine.response }

/-- Request body of `POST /query-patient-data`
(`medical_data.QueryPatientDataRequest`). -/
structure QueryPatientDataRequest where
  patient_code : String
  query : String
deriving Repr, DecidableEq

/-- Response dictionary of `POST /query-patient-data`. -/
structure QueryPatientDataResponse where
  patient_code : String
  query : String
  response : String
  source_documents : List SourceDocument
  diagnostic_insights : List DiagnosticInsight
deriving Repr, DecidableEq

/-- `POST /query-patient-data` (`medical_data.query_patient_medical_data`):
looks the patient up by code (404 if absent) and delegates to
`query_patient_documents` with the patient's id rendered as a string. -/
def query_patient_medical_data (request : QueryPatientDataRequest)
    (engine : QueryEngineResponse) (db : DBState) :
    Except HTTPError QueryPatientDataResponse :=
  match db.patientIdentifiers.find? (fun p => p.patient_code == request.patient_code) with
  | none => .error ⟨404, "Patient not found"⟩
  | some patient_identifier =>
      let result := query_patient_documents (toString patient_identifier.id)
        request.query engine
      .ok { patient_code := request.patient_code
            query := request.query
            response := result.response
            source_documents := result.source_nodes
            diagnostic_insights := result.diagnostic_insights }

/-- A clinical insight (`models.ClinicalInsight`) as built by
`query._extract_clinical_insights`; `_calculate_clinical_confidence` reads
only `confidence` and the list length. -/
structure ClinicalInsight where
  category : String
  insight : String
  confidence : ℚ
  supporting_evidence : List String
  clinical_significance : String
deriving Repr, DecidableEq

/-- `query._calculate_clinical_confidence`: base 0.5 plus capped boosts for
the number of insights, the number of sources and the response length, plus
a signed boost from the average insight confidence, clamped to [0, 1]. -/
def calculate_clinical_confidence (response_text : String)
    (clinical_insights : List ClinicalInsight) (num_sources : Nat) : ℚ :=
  let base_confidence : ℚ := 0.5
  let insight_boost : ℚ := min ((clinical_insights.length : ℚ) * 0.1) 0.3
  let source_boost : ℚ := min ((num_sources : ℚ) * 0.05) 0.2
  let response_length_boost : ℚ := min ((response_text.length : ℚ) / 1000 * 0.1) 0.2
  let insight_confidence_boost : ℚ :=
    if clinical_insights.isEmpty then 0
    else
      let avg := (clinical_insights.map (fun i => i.confidence)).sum
        / (clinical_insights.length : ℚ)
      (avg - 0.5) * 0.3
  let total_confidence := base_confidence + insight_boost + source_boost
    + response_length_boost + insight_confidence_boost
  max 0 (min 1 total_confidence)

/-- `medical_data._calculate_confidence_score`: base 0.5 with additive boosts
for document count, document-type variety, recency (documents at most 7 days
old relative to `now`) and metadata presence, capped at 1.0.  `now` and
`created_at` are day counts standing for `datetime.now()`. -/
def calculate_confidence_score (documents : List MedicalDocument)
    (total_count : Nat) (now : Nat) : ℚ :=
  let base1 : ℚ :=
    if total_count ≥ 5 then 0.5 + 0.2
    else if total_count ≥ 3 then 0.5 + 0.1
    else 0.5
  let doc_types := (documents.map (fun d => d.document_type)).dedup
  let base2 : ℚ :=
    if doc_types.length ≥ 3 then base1 + 0.15
    else if doc_types.length ≥ 2 then base1 + 0.1
    else base1
  let recent_docs := documents.filter (fun d => now - d.created_at ≤ 7)
  let base3 : ℚ := if recent_docs.length ≥ 2 then base2 + 0.1 else base2
  let docs_with_metadata := documents.filter (fun d => !d.metadata_json.isEmpty)
  let base4 : ℚ :=
    if (docs_with_metadata.length : ℚ) > (documents.length : ℚ) * 0.5
    then base3 + 0.05 else base3
  min base4 1

/-- One suggested medical code as built by
`LlamaService._parse_coding_response`. -/
structure CodeSuggestion where
  code : String
  description : String
  confidence : ℚ
  category : String
deriving Repr, DecidableEq

/-- The ICD-10 entries of `_parse_coding_response`: for the i-th regex match
(code, description), confidence `max(0.9 - i*0.1, 0.5)` and category
`primary`/`secondary`. -/
def icd10Entries (icd10_matches : List (String × String))
    (max_suggestions : Nat) : List CodeSuggestion :=
  ((icd10_matches.take max_suggestions).enum).map (fun p =>
    { code := p.2.1.toUpper.trim
      description := p.2.2.trim
      confidence := max ((0.9 : ℚ) - (p.1 : ℚ) * 0.1) 0.5
      category := if p.1 == 0 then "primary" else "secondary" })

/-- The CPT entries of `_parse_coding_response`: for the i-th regex match,
confidence `max(0.85 - i*0.1, 0.5)` and category `procedure`. -/
def cptEntries (cpt_matches : List (String × String))
    (max_suggestions : Nat) : List CodeSuggestion :=
  ((cpt_matches.take max_suggestions).enum).map (fun p =>
    { code := p.2.1.trim
      description := p.2.2.trim
      confidence := max ((0.85 : ℚ) - (p.1 : ℚ) * 0.1) 0.5
      category := "procedure" })

/-- Structured result of `_parse_coding_response` (the code lists and the
overall confidence; the textual summary and notes are omitted as no claim
reads them). -/
structure CodingResult where
  icd10_codes : List CodeSuggestion
  cpt_codes : List CodeSuggestion
  confidence_score : ℚ
deriving Repr, DecidableEq

/-- `LlamaService._parse_coding_response` on the lists of regex matches.
The regular-expression extraction itself runs in Python's `re` library over
the LLM's free text, so the two match lists are inputs of the model; the
confidence assignment and the overall score mirror the source. -/
def parse_coding_response (icd10_matches cpt_matches : List (String × String))
    (include_diagnoses include_procedures : Bool)
    (max_suggestions : Nat) : CodingResult :=
  let icd10_codes :=
    if include_diagnoses then icd10Entries icd10_matches max_suggestions else []
  let cpt_codes :=
    if include_procedures then cptEntries cpt_matches max_suggestions else []
  let all_suggestions := icd10_codes ++ cpt_codes
  let confidence_score : ℚ :=
    if all_suggestions.isEmpty then 0.5
    else
      let avg_confidence := (all_suggestions.map (fun c => c.confidence)).sum
        / (all_suggestions.length : ℚ)
      if all_suggestions.length ≥ 3 then min (avg_confidence + 0.1) 1
      else avg_confidence
  { icd10_codes := icd10_codes
    cpt_codes := cpt_codes
    confidence_score := confidence_score }

/-! Concrete example data mirroring the scenario of the spec's §8, used to
instantiate theorems on explicit inputs. -/

deriving instance DecidableEq for Except

/-- The empty database. -/
def emptyDB : DBState := ⟨[], [], [], [], [], []⟩

/-- Example facility-creation request. -/
def exFacilityCreate : FacilityCreate :=
  { name := "General Hospital", address := some "123 St", external_id := some "HOSP_001" }

/-- Example facility row. -/
def exFacility : Facility :=
  { id := 1, name := "General Hospital", external_id := some "HOSP_001", address := some "123 St" }

/-- Example vector-db row of the facility. -/
def exVectorDB : VectorDB :=
  { id := 2, name := "General Hospital_VectorDB", facility_id := 1 }

/-- Example facility-wide shared collection. -/
def exSharedCollection : Collection :=
  { id := 3, name := "Facility_Shared_Collection", description := "shared", vector_db_id := 2 }

/-- Example patient row. -/
def exPatient : PatientIdentifier :=
  { id := 4, patient_code := "PAT1", external_id := none, facility_id := 1
    age_range := some "25-30", gender := some "M" }

/-- The example patient's dedicated collection. -/
def exPatientCollection : Collection :=
  { id := 5, name := "Patient_PAT1_Collection", description := "patient", vector_db_id := 2 }

/-- Example database with one provisioned facility and patient. -/
def exDB : DBState :=
  { facilities := [exFacility]
    vectorDBs := [exVectorDB]
    collections := [exSharedCollection, exPatientCollection]
    patientIdentifiers := [exPatient]
    medicalDocuments := []
    aiIndex := [] }

/-- Example medical-document ingestion request; its `collection_id` points at
a non-existent collection on purpose. -/
def exDocCreate : MedicalDocumentCreate :=
  { content := "note", metadata := [("k", "v")], patient_identifier_id := some 4
    document_type := "clinical_note", document_category := "clinical"
    sensitivity_level := "standard", collection_id := some 99 }

/-- Patient-creation request pointing at a facility id that does not exist. -/
def exPatientCreateBad : PatientIdentifierCreate :=
  { patient_code := "PAT9", external_id := none, facility_id := 42
    age_range := none, gender := none }

/-- Patient-creation request for a second patient of the example facility. -/
def exPatientCreate2 : PatientIdentifierCreate :=
  { patient_code := "PAT2", external_id := none, facility_id := 1
    age_range := none, gender := none }

/-- The database expected after creating `exPatientCreate2` against `exDB`. -/
def exDBAfterPAT2 : DBState :=
  { exDB with
      patientIdentifiers := exDB.patientIdentifiers ++
        [⟨6, "PAT2", none, 1, none, none⟩]
      collections := exDB.collections ++
        [⟨7, "Patient_PAT2_Collection",
          "Medical documents collection for patient PAT2", 2⟩] }

/-- A retrieved node belonging to the example patient (id 4). -/
def exNodeMine : SourceNode :=
  { text := "doc text"
    metadata := [("patient_identifier_id", "4"), ("document_type", "clinical_note")]
    score := some 0.9 }

/-- A retrieved node belonging to a different patient. -/
def exNodeOther : SourceNode :=
  { text := "other", metadata := [("patient_identifier_id", "8")], score := none }

/-- Example engine response containing nodes of two different patients. -/
def exEngine : QueryEngineResponse :=
  { response := "All values normal", source_nodes := [exNodeMine, exNodeOther] }

/-- Example patient-scoped query request. -/
def exQueryRequest : QueryPatientDataRequest :=
  { patient_code := "PAT1", query := "summary" }

/-! Claim theorems. -/

/-- C3: a facility creation whose external_id (if provided) is unused, run
with no database-layer failure, succeeds and persists a Facility row, a
VectorDB row named `\x7bname\x7d_VectorDB` owned by it, and a Collection row
named `Facility_Shared_Collection` under that VectorDB. -/
theorem facility_creation_provisions_infrastructure
    (data : FacilityCreate) (fid vid cid : Id) (now : Nat) (db : DBState)
    (hext : externalIdTaken db data.external_id = false) :
    ∃ resp db',
      create_facility data ⟨false, false, false⟩ fid vid cid now db = (.ok resp, db') ∧
      (∃ f ∈ db'.facilities, f.id = fid ∧ f.name = data.name ∧
        f.external_id = data.external_id) ∧
      (∃ v ∈ db'.vectorDBs, v.id = vid ∧ v.name = data.name ++ "_VectorDB" ∧
        v.facility_id = fid) ∧
      (∃ c ∈ db'.collections, c.name = "Facility_Shared_Collection" ∧
        c.vector_db_id = vid) := by
  refine ⟨⟨fid, data.name, data.address, data.external_id, now, now⟩,
    { db with
        facilities := db.facilities ++ [⟨fid, data.name, data.external_id, data.address⟩]
        vectorDBs := db.vectorDBs ++ [⟨vid, data.name ++ "_VectorDB", fid⟩]
        collections := db.collections ++ [⟨cid, "Facility_Shared_Collection",
          "Shared collection for all patient documents at " ++ data.name, vid⟩] },
    ?_, ?_, ?_, ?_⟩
  · simp [create_facility, hext]
  · exact ⟨⟨fid, data.name, data.external_id, data.address⟩, by simp, rfl, rfl, rfl⟩
  · exact ⟨⟨vid, data.name ++ "_VectorDB", fid⟩, by simp, rfl, rfl, rfl⟩
  · refine ⟨⟨cid, "Facility_Shared_Collection",
      "Shared collection for all patient documents at " ++ data.name, vid⟩, by simp, rfl, rfl⟩

/-- C4: a facility creation whose external_id equals the external_id of an
already-persisted facility fails with HTTP 400 — through the explicit
check-then-insert test when the id is a non-empty string, and through the
UNIQUE constraint on `facilities.external_id` otherwise — and leaves the
database state unchanged, whatever database-layer failures occur. -/
theorem facility_creation_duplicate_external_id_rejected
    (data : FacilityCreate) (fails : FacilityStepFails) (fid vid cid : Id)
    (now : Nat) (db : DBState) (e : String)
    (hdata : data.external_id = some e)
    (f : Facility) (hf : f ∈ db.facilities) (hfe : f.external_id = some e) :
    ∃ err, create_facility data fails fid vid cid now db = (.error err, db) ∧
      err.status = 400 := by
  have htaken : externalIdTaken db data.external_id = true := by
    rw [hdata]
    unfold externalIdTaken
    rw [List.find?_isSome]
    exact ⟨f, hf, by simp [hfe]⟩
  unfold create_facility
  rw [htaken]
  by_cases hp : pyTruthy data.external_id
  · rw [hp]
    exact ⟨_, rfl, rfl⟩
  · rw [Bool.not_eq_true] at hp
    rw [hp]
    simp only [Bool.false_and, Bool.or_true, if_false, if_true, Bool.false_eq_true]
    exact ⟨_, rfl, rfl⟩

/-- C5 counterexample: with the facility commit succeeding and the VectorDB
commit failing, the call errors but the Facility row created during the call
remains persisted — the three-step sequence is not rolled back as a whole. -/
theorem facility_midstep_failure_keeps_facility_row :
    (create_facility exFacilityCreate ⟨false, true, false⟩ 1 2 3 0 emptyDB).1 =
      .error ⟨400, "Error creating facility"⟩ ∧
    (create_facility exFacilityCreate ⟨false, true, false⟩ 1 2 3 0 emptyDB).2.facilities =
      [exFacility] := by
  decide

/-- C5 amended: rollback discards only the failing step's uncommitted row.
A failure at the Facility commit leaves the state unchanged; a failure at the
VectorDB commit leaves the new Facility row persisted; a failure at the
Collection commit leaves the new Facility and VectorDB rows persisted.  Each
failing call returns a 400 error. -/
theorem facility_rollback_only_uncommitted
    (data : FacilityCreate) (fid vid cid : Id) (now : Nat) (db : DBState)
    (hext : externalIdTaken db data.external_id = false) :
    ((create_facility data ⟨true, false, false⟩ fid vid cid now db).2 = db) ∧
    ((create_facility data ⟨false, true, false⟩ fid vid cid now db).2 =
      { db with facilities :=
          db.facilities ++ [⟨fid, data.name, data.external_id, data.address⟩] }) ∧
    ((create_facility data ⟨false, false, true⟩ fid vid cid now db).2 =
      { db with
          facilities := db.facilities ++ [⟨fid, data.name, data.external_id, data.address⟩]
          vectorDBs := db.vectorDBs ++ [⟨vid, data.name ++ "_VectorDB", fid⟩] }) ∧
    (∀ fails : FacilityStepFails, fails ≠ ⟨false, false, false⟩ →
      ∃ err, (create_facility data fails fid vid cid now db).1 = .error err ∧
        err.status = 400) := by
  refine ⟨?_, ?_, ?_, ?_⟩
  · simp [create_facility, hext]
  · simp [create_facility, hext]
  · simp [create_facility, hext]
  · rintro ⟨f1, f2, f3⟩ hne
    cases f1 <;> cases f2 <;> cases f3 <;>
      simp [create_facility, hext] at hne ⊢

/-- C7: a patient-identifier creation whose facility_id matches no existing
facility fails with HTTP 400 and leaves the database state unchanged (so no
PatientIdentifier row and no Collection row is inserted). -/
theorem patient_creation_missing_facility_rejected
    (patient_data : PatientIdentifierCreate) (pid collId : Id) (db : DBState)
    (hfac : db.facilities.find? (fun f => f.id == patient_data.facility_id) = none) :
    ∃ err, create_patient_identifier patient_data pid collId db = (.error err, db) ∧
      err.status = 400 := by
  unfold create_patient_identifier
  rw [hfac]
  exact ⟨_, rfl, rfl⟩

/-- C8: every successful patient-identifier creation persists a Collection
named `Patient_\x7bpatient_code\x7d_Collection` whose vector_db_id is the one
the endpoint resolved for the patient's facility; and the naming scheme is
injective, so distinct patient_codes always yield distinct collection
names. -/
theorem patient_creation_provisions_dedicated_collection
    (patient_data : PatientIdentifierCreate) (pid collId : Id) (db : DBState)
    (resp : PatientIdentifier) (db' : DBState)
    (h : create_patient_identifier patient_data pid collId db = (.ok resp, db')) :
    (∃ vdb, db.vectorDBs.find? (fun v => v.facility_id == patient_data.facility_id)
        = some vdb ∧
      (⟨collId, "Patient_" ++ patient_data.patient_code ++ "_Collection",
        "Medical documents collection for patient " ++ patient_data.patient_code,
        vdb.id⟩ : Collection) ∈ db'.collections) ∧
    (∀ c1 c2 : String,
      "Patient_" ++ c1 ++ "_Collection" = "Patient_" ++ c2 ++ "_Collection" →
      c1 = c2) := by
  constructor
  · unfold create_patient_identifier at h
    by_cases hfac :
        (db.facilities.find? (fun f => f.id == patient_data.facility_id)).isNone
    · rw [if_pos hfac] at h
      exact absurd h (by simp)
    · rw [if_neg hfac] at h
      rcases hv : db.vectorDBs.find?
          (fun v => v.facility_id == patient_data.facility_id) with _ | vdb
      · rw [hv] at h
        exact absurd h (by simp)
      · rw [hv] at h
        dsimp only at h
        by_cases hcode : patientCodeTaken db patient_data.patient_code
        · rw [if_pos hcode] at h
          exact absurd h (by simp)
        · rw [if_neg hcode] at h
          refine ⟨vdb, hv, ?_⟩
          have hdb' : db' = { db with
              patientIdentifiers := db.patientIdentifiers ++
                [⟨pid, patient_data.patient_code, patient_data.external_id,
                  patient_data.facility_id, patient_data.age_range, patient_data.gender⟩]
              collections := db.collections ++
                [⟨collId, "Patient_" ++ patient_data.patient_code ++ "_Collection",
                  "Medical documents collection for patient " ++ patient_data.patient_code,
                  vdb.id⟩] } := by
            have := congrArg Prod.snd h
            simpa using this.symm
          rw [hdb']
          simp
  · intro c1 c2 hname
    have h1 := congrArg String.data hname
    simp only [String.data_append] at h1
    exact String.ext (List.append_cancel_left (List.append_cancel_right h1))

/-- C1: for a patient the endpoint resolves (`hP`) whose dedicated
collection the name-convention lookup resolves to `C` (`hC`), ingestion
succeeds and stores exactly one new row whose `collection_id` is `C.id`
(whatever `collection_id` the request carried — the outcome is unchanged
when it is replaced); retrieving that row by id returns the very same
response, whose document_type, document_category, sensitivity_level and
metadata are the request's; and the response serialization ignores the
stored content, so content is excluded from the response. -/
theorem medical_document_ingestion_roundtrip
    (document_data : MedicalDocumentCreate) (indexFails : Bool) (docId : Id)
    (now : Nat) (db : DBState) (P : PatientIdentifier) (C : Collection)
    (hP : db.patientIdentifiers.find?
        (fun p => some p.id == document_data.patient_identifier_id) = some P)
    (hC : findPatientCollection db P = some C)
    (hfresh : ∀ d ∈ db.medicalDocuments, (d.id == docId) = false) :
    ∃ resp,
      (ingest_medical_document document_data indexFails docId now db).1 = .ok resp ∧
      (ingest_medical_document document_data indexFails docId now db).2.medicalDocuments
        = db.medicalDocuments ++
          [⟨docId, document_data.content, document_data.document_type,
            document_data.document_category, document_data.sensitivity_level,
            document_data.patient_identifier_id, some C.id, P.facility_id,
            document_data.metadata, false, now, now⟩] ∧
      get_medical_document docId
          (ingest_medical_document document_data indexFails docId now db).2 = .ok resp ∧
      resp.document_type = document_data.document_type ∧
      resp.document_category = document_data.document_category ∧
      resp.sensitivity_level = document_data.sensitivity_level ∧
      resp.metadata = document_data.metadata ∧
      (∀ cid, ingest_medical_document { document_data with collection_id := cid }
          indexFails docId now db
        = ingest_medical_document document_data indexFails docId now db) ∧
      (∀ (d : MedicalDocument) (c : String),
        medicalDocumentToResponse { d with content := c } = medicalDocumentToResponse d) := by
  have hnone : db.medicalDocuments.find? (fun d => d.id == docId) = none :=
    List.find?_eq_none.2 (fun d hd => by simp [hfresh d hd])
  refine ⟨medicalDocumentToResponse
      ⟨docId, document_data.content, document_data.document_type,
        document_data.document_category, document_data.sensitivity_level,
        document_data.patient_identifier_id, some C.id, P.facility_id,
        document_data.metadata, false, now, now⟩,
    ?_, ?_, ?_, rfl, rfl, rfl, rfl, fun cid => rfl, fun d c => rfl⟩
  · cases indexFails <;> simp [ingest_medical_document, hP, hC]
  · cases indexFails <;> simp [ingest_medical_document, hP, hC]
  · cases indexFails <;>
      simp [ingest_medical_document, hP, hC, get_medical_document,
        List.find?_append, hnone]

/-- C2: when the relational insert of the medical-document row succeeds but
the external index insertion fails, the indexing error is not propagated:
the endpoint still returns the normal success response, the new row remains
appended to the medical-documents table, and both the response and the
relational rows are exactly those of a run in which indexing succeeded. -/
theorem indexing_failure_not_propagated
    (document_data : MedicalDocumentCreate) (docId : Id) (now : Nat)
    (db : DBState) (P : PatientIdentifier) (C : Collection)
    (hP : db.patientIdentifiers.find?
        (fun p => some p.id == document_data.patient_identifier_id) = some P)
    (hC : findPatientCollection db P = some C) :
    ∃ resp d,
      (ingest_medical_document document_data true docId now db).1 = .ok resp ∧
      (ingest_medical_document document_data true docId now db).2.medicalDocuments
        = db.medicalDocuments ++ [d] ∧
      (ingest_medical_document document_data true docId now db).1
        = (ingest_medical_document document_data false docId now db).1 ∧
      (ingest_medical_document document_data true docId now db).2.medicalDocuments
        = (ingest_medical_document document_data false docId now db).2.medicalDocuments := by
  refine ⟨medicalDocumentToResponse
      ⟨docId, document_data.content, document_data.document_type,
        document_data.document_category, document_data.sensitivity_level,
        document_data.patient_identifier_id, some C.id, P.facility_id,
        document_data.metadata, false, now, now⟩,
    ⟨docId, document_data.content, document_data.document_type,
      document_data.document_category, document_data.sensitivity_level,
      document_data.patient_identifier_id, some C.id, P.facility_id,
      document_data.metadata, false, now, now⟩, ?_, ?_, ?_, ?_⟩ <;>
    simp [ingest_medical_document, hP, hC]

/-- C6 counterexample: on the example database, ingestion completes
successfully with the index insertion attempted and succeeding, yet the one
persisted row has `processed = false`, not `true` as the claim states. -/
theorem ingest_example_leaves_processed_false :
    ((ingest_medical_document exDocCreate false 10 0 exDB).1).isOk = true ∧
    ((ingest_medical_document exDocCreate false 10 0 exDB).2.medicalDocuments.map
      (fun d => d.processed)) = [false] := by
  decide

/-- C6 amended: the medical-document ingestion endpoint never touches the
`processed` flag: whether the index insertion succeeds or fails, the row it
persists has `processed = false` (the row is created with the column's
default and no later update occurs). -/
theorem ingest_never_sets_processed
    (document_data : MedicalDocumentCreate) (indexFails : Bool) (docId : Id)
    (now : Nat) (db : DBState) (P : PatientIdentifier) (C : Collection)
    (hP : db.patientIdentifiers.find?
        (fun p => some p.id == document_data.patient_identifier_id) = some P)
    (hC : findPatientCollection db P = some C) :
    ∃ d, (ingest_medical_document document_data indexFails docId now db).2.medicalDocuments
        = db.medicalDocuments ++ [d] ∧
      d.processed = false := by
  refine ⟨⟨docId, document_data.content, document_data.document_type,
      document_data.document_category, document_data.sensitivity_level,
      document_data.patient_identifier_id, some C.id, P.facility_id,
      document_data.metadata, false, now, now⟩, ?_, rfl⟩
  cases indexFails <;> simp [ingest_medical_document, hP, hC]

/-- C9: the source nodes returned by `query_patient_documents` are exactly
those whose metadata `patient_identifier_id` equals the queried patient's
id, so every source document in the response of `POST /query-patient-data`
carries the queried patient's id — documents of other patients retrieved by
the underlying index are filtered out. -/
theorem patient_query_returns_only_patient_documents
    (request : QueryPatientDataRequest) (engine : QueryEngineResponse)
    (db : DBState) (patient : PatientIdentifier)
    (hfind : db.patientIdentifiers.find?
        (fun p => p.patient_code == request.patient_code) = some patient) :
    (∀ (pid query : String), ∀ d ∈ (query_patient_documents pid query engine).source_nodes,
        dictGet d.metadata "patient_identifier_id" = some pid) ∧
    (∃ resp, query_patient_medical_data request engine db = .ok resp ∧
      ∀ d ∈ resp.source_documents,
        dictGet d.metadata "patient_identifier_id" = some (toString patient.id)) := by
  have hmain : ∀ (pid query : String),
      ∀ d ∈ (query_patient_documents pid query engine).source_nodes,
        dictGet d.metadata "patient_identifier_id" = some pid := by
    intro pid query d hd
    unfold query_patient_documents at hd
    rcases List.mem_map.1 hd with ⟨node, hn, rfl⟩
    have hp := (List.mem_filter.1 hn).2
    exact eq_of_beq hp
  refine ⟨hmain,
    ⟨{ patient_code := request.patient_code
       query := request.query
       response := engine.response
       source_documents :=
         (query_patient_documents (toString patient.id) request.query engine).source_nodes
       diagnostic_insights := extract_diagnostic_insights engine.response }, ?_, ?_⟩⟩
  · unfold query_patient_medical_data
    rw [hfind]
    rfl
  · exact hmain (toString patient.id) request.query

/-- Bounds on the per-entry ICD-10 confidences of `_parse_coding_response`. -/
theorem icd10Entries_confidence_bounds (ms : List (String × String)) (k : Nat)
    (c : CodeSuggestion) (hc : c ∈ icd10Entries ms k) :
    (0.5 : ℚ) ≤ c.confidence ∧ c.confidence ≤ 1 := by
  unfold icd10Entries at hc
  rcases List.mem_map.1 hc with ⟨p, hp, rfl⟩
  refine ⟨le_max_right _ _, max_le ?_ (by norm_num)⟩
  have h0 : (0 : ℚ) ≤ (p.1 : ℚ) * 0.1 := by positivity
  linarith

/-- Bounds on the per-entry CPT confidences of `_parse_coding_response`. -/
theorem cptEntries_confidence_bounds (ms : List (String × String)) (k : Nat)
    (c : CodeSuggestion) (hc : c ∈ cptEntries ms k) :
    (0.5 : ℚ) ≤ c.confidence ∧ c.confidence ≤ 1 := by
  unfold cptEntries at hc
  rcases List.mem_map.1 hc with ⟨p, hp, rfl⟩
  refine ⟨le_max_right _ _, max_le ?_ (by norm_num)⟩
  have h0 : (0 : ℚ) ≤ (p.1 : ℚ) * 0.1 := by positivity
  linarith

/-- C10: every heuristic confidence score is in bounds —
`_calculate_clinical_confidence` always lies in [0, 1],
`_calculate_confidence_score` always lies in [0.5, 1], and every per-code
confidence built by `_parse_coding_response` lies in [0.5, 1]. -/
theorem confidence_scores_within_bounds :
    (∀ (response_text : String) (clinical_insights : List ClinicalInsight)
        (num_sources : Nat),
      0 ≤ calculate_clinical_confidence response_text clinical_insights num_sources ∧
      calculate_clinical_confidence response_text clinical_insights num_sources ≤ 1) ∧
    (∀ (documents : List MedicalDocument) (total_count now : Nat),
      (0.5 : ℚ) ≤ calculate_confidence_score documents total_count now ∧
      calculate_confidence_score documents total_count now ≤ 1) ∧
    (∀ (icd10_matches cpt_matches : List (String × String))
        (include_diagnoses include_procedures : Bool) (max_suggestions : Nat)
        (c : CodeSuggestion),
      c ∈ (parse_coding_response icd10_matches cpt_matches include_diagnoses
            include_procedures max_suggestions).icd10_codes ++
          (parse_coding_response icd10_matches cpt_matches include_diagnoses
            include_procedures max_suggestions).cpt_codes →
      (0.5 : ℚ) ≤ c.confidence ∧ c.confidence ≤ 1) := by
  refine ⟨?_, ?_, ?_⟩
  · intro response_text clinical_insights num_sources
    unfold calculate_clinical_confidence
    exact ⟨le_max_left _ _, max_le (by norm_num) (min_le_left _ _)⟩
  · intro documents total_count now
    unfold calculate_confidence_score
    refine ⟨le_min ?_ (by norm_num), min_le_right _ _⟩
    split_ifs <;> norm_num
  · intro icdm cptm incd incp k c hc
    simp only [parse_coding_response] at hc
    rcases List.mem_append.1 hc with h | h
    · cases incd with
      | false => simp at h
      | true => exact icd10Entries_confidence_bounds icdm k c (by simpa using h)
    · cases incp with
      | false => simp at h
      | true => exact cptEntries_confidence_bounds cptm k c (by simpa using h)

/-- Witness for C3 at the example creation request against the empty
database. -/
theorem facility_creation_provisions_infrastructure_witness :
    ∃ resp db',
      create_facility exFacilityCreate ⟨false, false, false⟩ 1 2 3 0 emptyDB
        = (.ok resp, db') ∧
      (∃ f ∈ db'.facilities, f.id = 1 ∧ f.name = exFacilityCreate.name ∧
        f.external_id = exFacilityCreate.external_id) ∧
      (∃ v ∈ db'.vectorDBs, v.id = 2 ∧ v.name = exFacilityCreate.name ++ "_VectorDB" ∧
        v.facility_id = 1) ∧
      (∃ c ∈ db'.collections, c.name = "Facility_Shared_Collection" ∧
        c.vector_db_id = 2) :=
  facility_creation_provisions_infrastructure exFacilityCreate 1 2 3 0 emptyDB
    (by decide)

/-- Witness for C4: re-creating the example facility's external_id against
the populated database is rejected with the state unchanged. -/
theorem facility_creation_duplicate_external_id_rejected_witness :
    ∃ err, create_facility exFacilityCreate ⟨false, false, false⟩ 7 8 9 0 exDB
        = (.error err, exDB) ∧ err.status = 400 :=
  facility_creation_duplicate_external_id_rejected exFacilityCreate
    ⟨false, false, false⟩ 7 8 9 0 exDB "HOSP_001" rfl exFacility (by decide) rfl

/-- Witness for the amended C5 at the example creation request against the
empty database. -/
theorem facility_rollback_only_uncommitted_witness :
    ((create_facility exFacilityCreate ⟨true, false, false⟩ 1 2 3 0 emptyDB).2
      = emptyDB) ∧
    ((create_facility exFacilityCreate ⟨false, true, false⟩ 1 2 3 0 emptyDB).2 =
      { emptyDB with facilities := emptyDB.facilities ++
          [⟨1, exFacilityCreate.name, exFacilityCreate.external_id,
            exFacilityCreate.address⟩] }) ∧
    ((create_facility exFacilityCreate ⟨false, false, true⟩ 1 2 3 0 emptyDB).2 =
      { emptyDB with
          facilities := emptyDB.facilities ++
            [⟨1, exFacilityCreate.name, exFacilityCreate.external_id,
              exFacilityCreate.address⟩]
          vectorDBs := emptyDB.vectorDBs ++
            [⟨2, exFacilityCreate.name ++ "_VectorDB", 1⟩] }) ∧
    (∀ fails : FacilityStepFails, fails ≠ ⟨false, false, false⟩ →
      ∃ err, (create_facility exFacilityCreate fails 1 2 3 0 emptyDB).1 = .error err ∧
        err.status = 400) :=
  facility_rollback_only_uncommitted exFacilityCreate 1 2 3 0 emptyDB (by decide)

/-- Witness for C7: creating a patient against a non-existent facility id on
the empty database is rejected with the state unchanged. -/
theorem patient_creation_missing_facility_rejected_witness :
    ∃ err, create_patient_identifier exPatientCreateBad 20 21 emptyDB
        = (.error err, emptyDB) ∧ err.status = 400 :=
  patient_creation_missing_facility_rejected exPatientCreateBad 20 21 emptyDB
    (by decide)

/-- Witness for C8 at the creation of a second patient of the example
facility. -/
theorem patient_creation_provisions_dedicated_collection_witness :
    (∃ vdb, exDB.vectorDBs.find?
        (fun v => v.facility_id == exPatientCreate2.facility_id) = some vdb ∧
      (⟨7, "Patient_" ++ exPatientCreate2.patient_code ++ "_Collection",
        "Medical documents collection for patient " ++ exPatientCreate2.patient_code,
        vdb.id⟩ : Collection) ∈ exDBAfterPAT2.collections) ∧
    (∀ c1 c2 : String,
      "Patient_" ++ c1 ++ "_Collection" = "Patient_" ++ c2 ++ "_Collection" →
      c1 = c2) :=
  patient_creation_provisions_dedicated_collection exPatientCreate2 6 7 exDB
    ⟨6, "PAT2", none, 1, none, none⟩ exDBAfterPAT2 (by decide)

/-- Witness for C1 at the example ingestion (with the index call failing,
and a stray `collection_id = 99` in the request). -/
theorem medical_document_ingestion_roundtrip_witness :
    ∃ resp,
      (ingest_medical_document exDocCreate true 10 0 exDB).1 = .ok resp ∧
      (ingest_medical_document exDocCreate true 10 0 exDB).2.medicalDocuments
        = exDB.medicalDocuments ++
          [⟨10, exDocCreate.content, exDocCreate.document_type,
            exDocCreate.document_category, exDocCreate.sensitivity_level,
            exDocCreate.patient_identifier_id, some exPatientCollection.id,
            exPatient.facility_id, exDocCreate.metadata, false, 0, 0⟩] ∧
      get_medical_document 10
          (ingest_medical_document exDocCreate true 10 0 exDB).2 = .ok resp ∧
      resp.document_type = exDocCreate.document_type ∧
      resp.document_category = exDocCreate.document_category ∧
      resp.sensitivity_level = exDocCreate.sensitivity_level ∧
      resp.metadata = exDocCreate.metadata ∧
      (∀ cid, ingest_medical_document { exDocCreate with collection_id := cid }
          true 10 0 exDB
        = ingest_medical_document exDocCreate true 10 0 exDB) ∧
      (∀ (d : MedicalDocument) (c : String),
        medicalDocumentToResponse { d with content := c } = medicalDocumentToResponse d) :=
  medical_document_ingestion_roundtrip exDocCreate true 10 0 exDB exPatient
    exPatientCollection (by decide) (by decide) (by decide)

/-- Witness for C2 at the example ingestion with a failing index call. -/
theorem indexing_failure_not_propagated_witness :
    ∃ resp d,
      (ingest_medical_document exDocCreate true 10 0 exDB).1 = .ok resp ∧
      (ingest_medical_document exDocCreate true 10 0 exDB).2.medicalDocuments
        = exDB.medicalDocuments ++ [d] ∧
      (ingest_medical_document exDocCreate true 10 0 exDB).1
        = (ingest_medical_document exDocCreate false 10 0 exDB).1 ∧
      (ingest_medical_document exDocCreate true 10 0 exDB).2.medicalDocuments
        = (ingest_medical_document exDocCreate false 10 0 exDB).2.medicalDocuments :=
  indexing_failure_not_propagated exDocCreate 10 0 exDB exPatient
    exPatientCollection (by decide) (by decide)

/-- Witness for the amended C6 at the example ingestion with a successful
index call. -/
theorem ingest_never_sets_processed_witness :
    ∃ d, (ingest_medical_document exDocCreate false 11 0 exDB).2.medicalDocuments
        = exDB.medicalDocuments ++ [d] ∧
      d.processed = false :=
  ingest_never_sets_processed exDocCreate false 11 0 exDB exPatient
    exPatientCollection (by decide) (by decide)

/-- Witness for C9 at the example query whose engine response mixes nodes of
two patients. -/
theorem patient_query_returns_only_patient_documents_witness :
    (∀ (pid query : String), ∀ d ∈ (query_patient_documents pid query exEngine).source_nodes,
        dictGet d.metadata "patient_identifier_id" = some pid) ∧
    (∃ resp, query_patient_medical_data exQueryRequest exEngine exDB = .ok resp ∧
      ∀ d ∈ resp.source_documents,
        dictGet d.metadata "patient_identifier_id" = some (toString exPatient.id)) :=
  patient_query_returns_only_patient_documents exQueryRequest exEngine exDB
    exPatient (by decide)

/-- Witness for C10, instantiating the per-code bound at the first ICD-10
entry parsed from a one-match response. -/
theorem confidence_scores_within_bounds_witness :
    (0 ≤ calculate_clinical_confidence "All values normal" [] 2 ∧
      calculate_clinical_confidence "All values normal" [] 2 ≤ 1) ∧
    ((0.5 : ℚ) ≤ calculate_confidence_score [] 0 0 ∧
      calculate_confidence_score [] 0 0 ≤ 1) ∧
    ((0.5 : ℚ) ≤ (⟨"a01.1".toUpper.trim, "x".trim,
        max ((0.9 : ℚ) - ((0 : Nat) : ℚ) * 0.1) 0.5,
        "primary"⟩ : CodeSuggestion).confidence ∧
      (⟨"a01.1".toUpper.trim, "x".trim,
        max ((0.9 : ℚ) - ((0 : Nat) : ℚ) * 0.1) 0.5,
        "primary"⟩ : CodeSuggestion).confidence ≤ 1) :=
  ⟨confidence_scores_within_bounds.1 "All values normal" [] 2,
   confidence_scores_within_bounds.2.1 [] 0 0,
   confidence_scores_within_bounds.2.2 [("a01.1", "x")] [] true true 5
     ⟨"a01.1".toUpper.trim, "x".trim,
       max ((0.9 : ℚ) - ((0 : Nat) : ℚ) * 0.1) 0.5, "primary"⟩
     (by simp [parse_coding_response, icd10Entries, cptEntries, List.enum])⟩

end EhrSpec
